import Mathlib

/-!
Verification of the provider-dispatch and track-selection engine of the
ryxu-xo-autoplay-py repository, as a shallow embedding in Lean 4.

Python sets, dicts and strings are modelled as follows:
* a per-guild history set (src/autoplay.py, track_history) is a list of
  distinct strings; since a CPython set has no specified iteration order,
  every place the source converts the set to a list goes through an
  explicit order oracle, an arbitrary permutation of the contents;
* dict String -> Set String is an association list;
* string truthiness: the empty string is falsy, as in Python;
* case mapping is ASCII (every string the claims touch is ASCII);
* fallible operations return Except String, modelling raised exceptions;
* network fetches and the injected Euralink search client are oracle
  parameters, so theorems quantify over every possible response.
-/

set_option maxRecDepth 8000

namespace RyxuAutoplay

/-- The AutoplaySource enumeration from src/types.py. -/
inductive AutoplaySource where
  | YOUTUBE
  | SPOTIFY
  | SOUNDCLOUD
deriving DecidableEq, Repr

/-- The string value of each enum member (AutoplaySource.value in src/types.py). -/
def AutoplaySource.value : AutoplaySource → String
  | .YOUTUBE => "youtube"
  | .SPOTIFY => "spotify"
  | .SOUNDCLOUD => "soundcloud"

/-- LavalinkTrackInfo from src/types.py, restricted to the five required fields;
the optional extras (length, is_seekable, is_stream, position, artwork_url, isrc,
metadata) are not read by any code a claim mentions and are omitted. -/
structure LavalinkTrackInfo where
  title : String
  author : String
  identifier : String
  uri : String
  source_name : String
deriving DecidableEq, Repr

/-- AutoplayResult from src/types.py. The free-form metadata mapping is not
modelled: no claim depends on its contents. -/
structure AutoplayResult where
  success : Bool
  url : Option String := none
  track_id : Option String := none
  source : Option AutoplaySource := none
  error : Option String := none
deriving DecidableEq, Repr

/-- Decidable equality for Except values, used to evaluate the embedded
fallible operations on concrete inputs. -/
instance exceptDecEq {ε α : Type} [DecidableEq ε] [DecidableEq α] :
    DecidableEq (Except ε α) := fun x y =>
  match x, y with
  | .ok v, .ok w => if h : v = w then isTrue (by rw [h]) else isFalse (by simp [h])
  | .error v, .error w => if h : v = w then isTrue (by rw [h]) else isFalse (by simp [h])
  | .ok _, .error _ => isFalse (by simp)
  | .error _, .ok _ => isFalse (by simp)

/-- Python truthiness of an Optional[str]: None and the empty string are falsy. -/
def optStrTruthy : Option String → Bool
  | none => false
  | some s => s ≠ ""

/-- ASCII lower-casing, modelling str.lower() on the ASCII strings in play. -/
def pyLower (s : String) : String := String.mk (s.data.map Char.toLower)

/-- Decides whether needle occurs as a contiguous substring of hay
(the Python `in` operator on strings). -/
def containsSub (needle : List Char) : List Char → Bool
  | [] => needle.isEmpty
  | c :: t => needle.isPrefixOf (c :: t) || containsSub needle t

/-- String form of the substring test: strContains hay needle. -/
def strContains (hay needle : String) : Bool := containsSub needle.data hay.data

/-- The track_history mapping of LavalinkAutoplay (src/autoplay.py line 33):
a dict from guild id to a set of track ids.  The list holding a guild's ids
records the set contents; iteration order of the underlying CPython set is
unspecified and is supplied separately as an order oracle where needed. -/
abbrev Hist := List (String × List String)

/-- Dict lookup with default empty set: track_history.get(guild_id, set()). -/
def histGet (h : Hist) (g : String) : List String :=
  match h.find? (fun p => p.1 == g) with
  | some p => p.2
  | none => []

/-- Dict store: track_history[guild_id] = v (replaces an existing binding,
otherwise appends a new one). -/
def histSet (h : Hist) (g : String) (v : List String) : Hist :=
  if h.any (fun p => p.1 == g) then
    h.map (fun p => if p.1 == g then (g, v) else p)
  else h ++ [(g, v)]

/-- Dict removal: track_history.pop(guild_id, None). -/
def histPop (h : Hist) (g : String) : Hist := h.filter (fun p => p.1 != g)

/-- LavalinkAutoplay.add_to_history (src/autoplay.py lines 67-81).
order models the unspecified iteration order of the CPython set: the source
does list(self.track_history[guild_id]) and keeps the last max_history_size
entries of that arbitrarily ordered list.  A valid order oracle returns a
permutation of its input.  The max_history_size = 0 branch mirrors the Python
slice semantics of history_list[-0:], which is the whole list. -/
def add_to_history (order : List String → List String) (max_history_size : Nat)
    (h : Hist) (guild_id track_id : String) : Hist :=
  if guild_id = "" ∨ track_id = "" then h
  else
    let s := histGet h guild_id
    let s1 := if track_id ∈ s then s else s ++ [track_id]
    let s2 :=
      if s1.length > max_history_size then
        let hl := order s1
        if max_history_size = 0 then hl
        else hl.drop (hl.length - max_history_size)
      else s1
    histSet h guild_id s2

/-- LavalinkAutoplay.is_in_history (src/autoplay.py lines 83-87). -/
def is_in_history (h : Hist) (guild_id track_id : String) : Bool :=
  if guild_id = "" ∨ track_id = "" then false
  else track_id ∈ histGet h guild_id

/-- LavalinkAutoplay.clear_history (src/autoplay.py lines 89-94): the argument
defaults to None; `if guild_id:` sends both None and the empty string to the
else branch, which clears the whole dict. -/
def clear_history (h : Hist) (guild_id : Option String) : Hist :=
  match guild_id with
  | some g => if g ≠ "" then histPop h g else []
  | none => []

/-- LavalinkAutoplay.map_source_name (src/autoplay.py lines 41-65).
Python `if not source_name` is the empty-string test; the URL sniffing
checks substring containment over the entire lower-cased URI. -/
def map_source_name (source_name : String) (track_info : Option LavalinkTrackInfo) :
    AutoplaySource :=
  if source_name = "" then
    match track_info with
    | some ti =>
      if ti.uri ≠ "" then
        let uri := pyLower ti.uri
        if strContains uri "youtube.com" || strContains uri "youtu.be" then .YOUTUBE
        else if strContains uri "spotify.com" then .SPOTIFY
        else if strContains uri "soundcloud.com" then .SOUNDCLOUD
        else .YOUTUBE
      else .YOUTUBE
    | none => .YOUTUBE
  else
    let source_lower := pyLower source_name
    if source_lower = "youtube" ∨ source_lower = "yt" ∨ source_lower = "ytsearch" ∨
        source_lower = "ytmsearch" then .YOUTUBE
    else if source_lower = "spotify" ∨ source_lower = "sp" ∨ source_lower = "spsearch" ∨
        source_lower = "sprec" then .SPOTIFY
    else if source_lower = "soundcloud" ∨ source_lower = "sc" ∨ source_lower = "scsearch" then
      .SOUNDCLOUD
    else .YOUTUBE

/-! SHA-1 and HMAC-SHA1 (FIPS 180-4 / FIPS 198-1) over byte lists, the
reference algorithms behind hashlib.sha1 and hmac.new in
src/utils/autoplay_apis.py.  Words are Nat reduced mod 2^32. -/

/-- Left rotation of a 32-bit word. -/
def rotl32 (x n : Nat) : Nat := ((x <<< n) % 2 ^ 32) ||| (x >>> (32 - n))

/-- The SHA-1 working state (a, b, c, d, e). -/
abbrev Sha1State := Nat × Nat × Nat × Nat × Nat

/-- SHA-1 initial hash value. -/
def sha1init : Sha1State := (0x67452301, 0xEFCDAB89, 0x98BADCFE, 0x10325476, 0xC3D2E1F0)

/-- SHA-1 round function for round t. -/
def sha1f (t b c d : Nat) : Nat :=
  if t < 20 then (b &&& c) ||| ((b ^^^ 0xFFFFFFFF) &&& d)
  else if t < 40 then b ^^^ c ^^^ d
  else if t < 60 then (b &&& c) ||| (b &&& d) ||| (c &&& d)
  else b ^^^ c ^^^ d

/-- SHA-1 round constant for round t. -/
def sha1k (t : Nat) : Nat :=
  if t < 20 then 0x5A827999
  else if t < 40 then 0x6ED9EBA1
  else if t < 60 then 0x8F1BBCDC
  else 0xCA62C1D6

/-- One SHA-1 round: consume schedule word wt at round index t. -/
def sha1round (t wt : Nat) : Sha1State → Sha1State
  | (a, b, c, d, e) =>
    ((rotl32 a 5 + sha1f t b c d + e + sha1k t + wt) % 2 ^ 32, a, rotl32 b 30, c, d)

/-- Run the SHA-1 rounds for each remaining schedule word, starting at round t. -/
def sha1rounds : Nat → List Nat → Sha1State → Sha1State
  | _, [], st => st
  | t, wt :: ws, st => sha1rounds (t + 1) ws (sha1round t wt st)

/-- Pack big-endian 4-byte groups into 32-bit words. -/
def toWords : List Nat → List Nat
  | b0 :: b1 :: b2 :: b3 :: rest =>
    ((b0 <<< 24) ||| (b1 <<< 16) ||| (b2 <<< 8) ||| b3) :: toWords rest
  | _ => []

/-- The next message-schedule word for the position just past w. -/
def schedWord (w : List Nat) : Nat :=
  let i := w.length
  rotl32 ((w.getD (i - 3) 0) ^^^ (w.getD (i - 8) 0) ^^^ (w.getD (i - 14) 0) ^^^
    (w.getD (i - 16) 0)) 1

/-- Extend the 16-word schedule by n further words. -/
def extendW : List Nat → Nat → List Nat
  | w, 0 => w
  | w, n + 1 => extendW (w ++ [schedWord w]) n

/-- Final mixing: add the round output back into the chaining state mod 2^32. -/
def sha1mix : Sha1State → Sha1State → Sha1State
  | (h0, h1, h2, h3, h4), (a, b, c, d, e) =>
    ((h0 + a) % 2 ^ 32, (h1 + b) % 2 ^ 32, (h2 + c) % 2 ^ 32, (h3 + d) % 2 ^ 32,
      (h4 + e) % 2 ^ 32)

/-- SHA-1 compression of one 64-byte block. -/
def sha1compress (st : Sha1State) (block : List Nat) : Sha1State :=
  sha1mix st (sha1rounds 0 (extendW (toWords block) 64) st)

/-- Big-endian 8-byte encoding of n (Python int.to_bytes(8, big)). -/
def be64 (n : Nat) : List Nat :=
  [(n >>> 56) % 256, (n >>> 48) % 256, (n >>> 40) % 256, (n >>> 32) % 256,
   (n >>> 24) % 256, (n >>> 16) % 256, (n >>> 8) % 256, n % 256]

/-- Big-endian 4-byte encoding of a 32-bit word. -/
def be32 (n : Nat) : List Nat :=
  [(n >>> 24) % 256, (n >>> 16) % 256, (n >>> 8) % 256, n % 256]

/-- SHA-1 padding: 0x80, zeros to 56 mod 64, then the 64-bit bit length. -/
def sha1pad (msg : List Nat) : List Nat :=
  msg ++ [0x80] ++ List.replicate ((119 - msg.length % 64) % 64) 0 ++ be64 (8 * msg.length)

/-- Split a byte list into 64-byte blocks (fuel is the list length). -/
def chunks64 : Nat → List Nat → List (List Nat)
  | 0, _ => []
  | _ + 1, [] => []
  | fuel + 1, l => l.take 64 :: chunks64 fuel (l.drop 64)

/-- Serialize the final state as the 20 big-endian digest bytes. -/
def sha1out : Sha1State → List Nat
  | (h0, h1, h2, h3, h4) => be32 h0 ++ be32 h1 ++ be32 h2 ++ be32 h3 ++ be32 h4

/-- The 20-byte SHA-1 digest of a byte list. -/
def sha1 (msg : List Nat) : List Nat :=
  sha1out ((chunks64 (sha1pad msg).length (sha1pad msg)).foldl sha1compress sha1init)

/-- The processed HMAC key: hashed if longer than the 64-byte block, then
zero-padded to 64 bytes. -/
def hmacKeyPad (key : List Nat) : List Nat :=
  (if key.length > 64 then sha1 key else key) ++
    List.replicate (64 - (if key.length > 64 then sha1 key else key).length) 0

/-- HMAC-SHA1 (FIPS 198-1) with 64-byte block size, as hmac.new(key, msg, sha1). -/
def hmac_sha1 (key msg : List Nat) : List Nat :=
  sha1 ((hmacKeyPad key).map (fun b => b ^^^ 0x5C) ++
    sha1 ((hmacKeyPad key).map (fun b => b ^^^ 0x36) ++ msg))

/-! Trace checkers: shallow Bool checks of precomputed execution traces, with
soundness lemmas connecting them to the recursive definitions above, so that
concrete digests can be certified without deep kernel recursion. -/

/-- Checks that ys is exactly the run of schedule words extendW appends to w. -/
def extendWTrace : List Nat → List Nat → Bool
  | _, [] => true
  | w, y :: ys => (schedWord w == y) && extendWTrace (w ++ [y]) ys

/-- A verified schedule trace determines the value of extendW. -/
theorem extendW_of_trace : ∀ ys w, extendWTrace w ys = true → extendW w ys.length = w ++ ys := by
  intro ys
  induction ys with
  | nil => intro w _; simp [extendW]
  | cons y ys ih =>
    intro w h
    simp only [extendWTrace, Bool.and_eq_true, beq_iff_eq] at h
    simp only [List.length_cons, extendW, h.1]
    rw [ih (w ++ [y]) h.2]
    simp

/-- Checks that trs is the state trace of the SHA-1 rounds on ws from st. -/
def sha1roundsTrace : Nat → List Nat → Sha1State → List Sha1State → Bool
  | _, [], _, trs => trs.isEmpty
  | t, wt :: ws, st, tr :: trs => (sha1round t wt st == tr) && sha1roundsTrace (t + 1) ws tr trs
  | _, _ :: _, _, [] => false

/-- A verified round trace determines the value of sha1rounds. -/
theorem sha1rounds_of_trace :
    ∀ ws t st trs, sha1roundsTrace t ws st trs = true →
      sha1rounds t ws st = trs.getLastD st := by
  intro ws
  induction ws with
  | nil =>
    intro t st trs h
    cases trs with
    | nil => simp [sha1rounds]
    | cons tr trs => simp [sha1roundsTrace] at h
  | cons wt ws ih =>
    intro t st trs h
    cases trs with
    | nil => simp [sha1roundsTrace] at h
    | cons tr trs =>
      simp only [sha1roundsTrace, Bool.and_eq_true, beq_iff_eq] at h
      simp only [sha1rounds, h.1, List.getLastD_cons]
      exact ih (t + 1) tr trs h.2

/-- Certify one SHA-1 compression from literal schedule and round traces. -/
theorem sha1compress_eval (st : Sha1State) (block w16 ext : List Nat) (trs : List Sha1State)
    (h1 : toWords block = w16) (h2 : extendWTrace w16 ext = true) (hlen : ext.length = 64)
    (h3 : sha1roundsTrace 0 (w16 ++ ext) st trs = true) :
    sha1compress st block = sha1mix st (trs.getLastD st) := by
  unfold sha1compress
  rw [h1, ← hlen, extendW_of_trace ext w16 h2, sha1rounds_of_trace (w16 ++ ext) 0 st trs h3]

/-! Literal execution traces for the two HMAC-SHA1 compressions of the TOTP
value at time bucket 57000000 (counter 57000000, buffer 0x0365C040 big-endian),
cross-checked against an independent reference implementation of RFC 2104 /
FIPS 180-4.  iA/iB are the two blocks of the inner hash, oA/oB of the outer. -/

def blkiA : List Nat := [3, 3, 6, 1, 7, 2, 3, 14, 3, 5, 2, 14, 1, 2, 15, 15, 3, 15, 4, 4, 2, 14, 0, 5, 6, 5, 4, 15, 5, 2, 1, 54, 54, 54, 54, 54, 54, 54, 54, 54, 54, 54, 54, 54, 54, 54, 54, 54, 54, 54, 54, 54, 54, 54, 54, 54, 54, 54, 54, 54, 54, 54, 54, 54]

def w16iA : List Nat := [50529793, 117572366, 50659854, 16912143, 51315716, 34471941, 100992015, 84017462, 909522486, 909522486, 909522486, 909522486, 909522486, 909522486, 909522486, 909522486]

def extiA : List Nat := [788510, 201332738, 1313812, 1785487940, 2121817214, 1650226722, 3637693590, 4143233680, 3298884728, 2846206249, 3988876553, 1570323577, 2948328111, 523908695, 1726193039, 3337813014, 3070598219, 1381277121, 2864677610, 3310971049, 3062615820, 1113255966, 2140244881, 1582317894, 3095263817, 3019048449, 1831503893, 2131702172, 2554428507, 3983631509, 2733733779, 2775497108, 2439839994, 203360757, 2833316047, 3536016290, 3129500262, 3006683652, 1874635731, 3834329451, 3994571077, 1589586807, 1912630229, 1565175773, 3171845555, 307485089, 47507150, 3790084467, 2341265827, 91172829, 50450463, 1852215217, 3668625334, 2380191138, 3660392403, 49125811, 882122019, 3111065929, 2646953877, 735562204, 3091168005, 3342906827, 4047884996, 3165366320]

def triA : List (Nat × Nat × Nat × Nat × Nat) := [(2729942708, 1732584193, 2079550178, 2562383102, 271733878), (3299255983, 2729942708, 1506887872, 2079550178, 2562383102), (3840448351, 3299255983, 682485677, 1506887872, 2079550178), (2390806131, 3840448351, 4046039467, 682485677, 1506887872), (1873442425, 2390806131, 4181337559, 4046039467, 682485677), (1941329491, 1873442425, 3818927004, 4181337559, 4046039467), (3157009759, 1941329491, 1542102430, 3818927004, 4181337559), (2984608315, 3157009759, 3706557844, 1542102430, 3818927004), (2432157813, 2984608315, 4010477911, 3706557844, 1542102430), (4171592118, 2432157813, 3967377550, 4010477911, 3706557844), (1909308744, 4171592118, 1681781277, 3967377550, 4010477911), (502846032, 1909308744, 3190381677, 1681781277, 3967377550), (1887811773, 502846032, 477327186, 3190381677, 1681781277), (3290368023, 1887811773, 125711508, 477327186, 3190381677), (3745089290, 3290368023, 1545694767, 125711508, 477327186), (3686677763, 3745089290, 4043817477, 1545694767, 125711508), (2866168043, 3686677763, 3083755970, 4043817477, 1545694767), (3506176069, 2866168043, 4142894912, 3083755970, 4043817477), (585920940, 3506176069, 3937767482, 4142894912, 3083755970), (3238199843, 585920940, 1950285841, 3937767482, 4142894912), (3238591838, 3238199843, 146480235, 1950285841, 3937767482), (2593307694, 3238591838, 4030775432, 146480235, 1950285841), (1211523032, 2593307694, 2957131607, 4030775432, 146480235), (1340473750, 1211523032, 2795810571, 2957131607, 4030775432), (2135730926, 1340473750, 302880758, 2795810571, 2957131607), (2913364827, 2135730926, 2482602085, 302880758, 2795810571), (3066441895, 2913364827, 2681416379, 2482602085, 302880758), (1490261643, 3066441895, 3949566678, 2681416379, 2482602085), (2407442666, 1490261643, 3987835945, 3949566678, 2681416379), (2076699256, 2407442666, 3593790882, 3987835945, 3949566678), (4011865206, 2076699256, 2749344314, 3593790882, 3987835945), (363964573, 4011865206, 519174814, 2749344314, 3593790882), (72869378, 363964573, 3150449949, 519174814, 2749344314), (2694009594, 72869378, 1164732967, 3150449949, 519174814), (1172916661, 2694009594, 2165700992, 1164732967, 3150449949), (302995820, 1172916661, 2820986046, 2165700992, 1164732967), (429242081, 302995820, 1366970989, 2820986046, 2165700992), (1347653921, 429242081, 75748955, 1366970989, 2820986046), (3983450865, 1347653921, 1181052344, 75748955, 1366970989), (3744335955, 3983450865, 1410655304, 1181052344, 75748955), (1984134387, 3744335955, 2069604540, 1410655304, 1181052344), (2969728859, 1984134387, 4157309460, 2069604540, 1410655304), (3891641699, 2969728859, 3717259068, 4157309460, 2069604540), (2109807308, 3891641699, 3963657686, 3717259068, 4157309460), (3306992208, 2109807308, 4194135896, 3963657686, 3717259068), (4218776225, 3306992208, 527451827, 4194135896, 3963657686), (1786219732, 4218776225, 826748052, 527451827, 4194135896), (3102666502, 1786219732, 2128435880, 826748052, 527451827), (3626889716, 3102666502, 446554933, 2128435880, 826748052), (220077348, 3626889716, 2923150273, 446554933, 2128435880), (4108036297, 220077348, 906722429, 2923150273, 446554933), (1175276118, 4108036297, 55019337, 906722429, 2923150273), (4023702036, 1175276118, 2100750898, 55019337, 906722429), (3120537676, 4023702036, 2441302677, 2100750898, 55019337), (1068157859, 3120537676, 1005925509, 2441302677, 2100750898), (2687403365, 1068157859, 780134419, 1005925509, 2441302677), (1418196461, 2687403365, 3488264936, 780134419, 1005925509), (1765636835, 1418196461, 1745592665, 3488264936, 780134419), (2748784410, 1765636835, 1428290939, 1745592665, 3488264936), (2690579568, 2748784410, 3662634680, 1428290939, 1745592665), (672543695, 2690579568, 2834679750, 3662634680, 1428290939), (126056421, 672543695, 672644892, 2834679750, 3662634680), (1089097489, 126056421, 3389361395, 672644892, 2834679750), (1478216001, 1089097489, 1105255929, 3389361395, 672644892), (1284483291, 1478216001, 1346016196, 1105255929, 3389361395), (1972248971, 1284483291, 1443295824, 1346016196, 1105255929), (196962987, 1972248971, 3542346294, 1443295824, 1346016196), (4049368217, 196962987, 3714287714, 3542346294, 1443295824), (748689433, 4049368217, 3270466218, 3714287714, 3542346294), (2922982180, 748689433, 2086083878, 3270466218, 3714287714), (3677435445, 2922982180, 1260914182, 2086083878, 3270466218), (2410458354, 3677435445, 730745545, 1260914182, 2086083878), (746263914, 2410458354, 1993100685, 730745545, 1260914182), (827013664, 746263914, 2750098236, 1993100685, 730745545), (3061453845, 827013664, 2334049626, 2750098236, 1993100685), (1443377211, 3061453845, 206753416, 2334049626, 2750098236), (415862600, 1443377211, 1839105285, 206753416, 2334049626), (1840816564, 415862600, 3582069774, 1839105285, 206753416), (535076850, 1840816564, 103965650, 3582069774, 1839105285), (2940844982, 535076850, 460204141, 103965650, 3582069774)]

def blkiB : List Nat := [0, 0, 0, 0, 3, 101, 192, 64, 128, 0, 0, 0, 0, 0, 0, 0, 0, 0, 0, 0, 0, 0, 0, 0, 0, 0, 0, 0, 0, 0, 0, 0, 0, 0, 0, 0, 0, 0, 0, 0, 0, 0, 0, 0, 0, 0, 0, 0, 0, 0, 0, 0, 0, 0, 0, 0, 0, 0, 0, 0, 0, 0, 2, 64]

def w16iB : List Nat := [0, 57000000, 2147483648, 0, 0, 0, 0, 0, 0, 0, 0, 0, 0, 0, 0, 576]

def extiB : List Nat := [1, 114000000, 1153, 2, 228000000, 2306, 4, 456001152, 4614, 228000008, 912000002, 9224, 16, 1824005760, 18458, 1003161760, 3648000012, 381260576, 4678, 3001055753, 912073832, 4012639880, 1707098147, 912152192, 256, 4259179526, 295336, 3165684483, 2533425353, 1891049985, 79468, 408656787, 1401832087, 3003803270, 1543788586, 1709537835, 4012639240, 3951187015, 4725448, 2045266490, 1880173809, 3831375511, 1708336867, 3018321841, 954476661, 3447428717, 3225486085, 3569041077, 1707163715, 3856691839, 75532520, 2961376060, 1690339732, 3072459248, 20343808, 1536931608, 2386728771, 1725935283, 72901324, 2159795014, 4118026415, 1433769929, 1209788416, 1063896827]

def triB : List (Nat × Nat × Nat × Nat × Nat) := [(3659001828, 378461879, 3287061214, 3022587243, 375699528), (1509458586, 3659001828, 3315840941, 3287061214, 3022587243), (2410121741, 1509458586, 914750457, 3315840941, 3287061214), (2816738789, 2410121741, 2524848294, 914750457, 3315840941), (3536674798, 2816738789, 1676272259, 2524848294, 914750457), (514757615, 3536674798, 1777926521, 1676272259, 2524848294), (683456907, 514757615, 3031652347, 1777926521, 1676272259), (1274454396, 683456907, 3349914875, 3031652347, 1777926521), (3623588246, 1274454396, 3392089698, 3349914875, 3031652347), (3705088337, 3623588246, 318613599, 3392089698, 3349914875), (3624990533, 3705088337, 3053380709, 318613599, 3392089698), (3184472325, 3624990533, 2000013908, 3053380709, 318613599), (2640643347, 3184472325, 1979989457, 2000013908, 3053380709), (861338562, 2640643347, 1869859905, 1979989457, 2000013908), (2885220596, 861338562, 3881386308, 1869859905, 1979989457), (3205963136, 2885220596, 2362818288, 3881386308, 1869859905), (2041294818, 3205963136, 721305149, 2362818288, 3881386308), (2834560540, 2041294818, 801490784, 721305149, 2362818288), (833394716, 2834560540, 2657807352, 801490784, 721305149), (1249550038, 833394716, 708640135, 2657807352, 801490784), (2172984621, 1249550038, 208348679, 708640135, 2657807352), (2853555105, 2172984621, 2459871157, 208348679, 708640135), (4215339520, 2853555105, 1616987979, 2459871157, 208348679), (1467777958, 4215339520, 1787130600, 1616987979, 2459871157), (3803048393, 1467777958, 1053834880, 1787130600, 1616987979), (901332222, 3803048393, 2514428137, 1053834880, 1787130600), (277215729, 901332222, 2024503922, 2514428137, 1053834880), (2536960688, 277215729, 2372816703, 2024503922, 2514428137), (3503828840, 2536960688, 1143045756, 2372816703, 2024503922), (3451729312, 3503828840, 634240172, 1143045756, 2372816703), (1696867531, 3451729312, 875957210, 634240172, 1143045756), (1871810303, 1696867531, 862932328, 875957210, 634240172), (3267820223, 1871810303, 3645442354, 862932328, 875957210), (2556472632, 3267820223, 3689178047, 3645442354, 862932328), (1858765460, 2556472632, 4038180527, 3689178047, 3645442354), (2273915281, 1858765460, 639118158, 4038180527, 3689178047), (715439469, 2273915281, 464691365, 639118158, 4038180527), (1567824119, 715439469, 1642220644, 464691365, 639118158), (4194944937, 1567824119, 1252601691, 1642220644, 464691365), (2019316685, 4194944937, 3613181501, 1252601691, 1642220644), (3599911720, 2019316685, 2122478058, 3613181501, 1252601691), (675844420, 3599911720, 1578570995, 2122478058, 3613181501), (3458301744, 675844420, 899977930, 1578570995, 2122478058), (3397593252, 3458301744, 168961105, 899977930, 1578570995), (3803782529, 3397593252, 864575436, 168961105, 899977930), (2535280295, 3803782529, 849398313, 864575436, 168961105), (2944486420, 2535280295, 2024687456, 849398313, 864575436), (4258629873, 2944486420, 3855045545, 2024687456, 849398313), (3179491067, 4258629873, 736121605, 3855045545, 2024687456), (1493147098, 3179491067, 2138399292, 736121605, 3855045545), (817661495, 1493147098, 4016098238, 2138399292, 736121605), (3085442224, 817661495, 2520770422, 4016098238, 2138399292), (2969403500, 3085442224, 3425640845, 2520770422, 4016098238), (534646827, 2969403500, 771360556, 3425640845, 2520770422), (3462710697, 534646827, 742350875, 771360556, 3425640845), (3486113287, 3462710697, 3354887178, 742350875, 771360556), (4107957757, 3486113287, 1939419498, 3354887178, 742350875), (48338774, 4107957757, 4092753793, 1939419498, 3354887178), (217303154, 48338774, 2100731263, 4092753793, 1939419498), (3372778383, 217303154, 2159568341, 2100731263, 4092753793), (164037789, 3372778383, 2201809436, 2159568341, 2100731263), (411147689, 164037789, 4064420067, 2201809436, 2159568341), (2487858741, 411147689, 1114751271, 4064420067, 2201809436), (1413756358, 2487858741, 1176528746, 1114751271, 4064420067), (990178366, 1413756358, 1695706509, 1176528746, 1114751271), (3402153060, 990178366, 2500922737, 1695706509, 1176528746), (958581635, 3402153060, 2395028239, 2500922737, 1695706509), (3580505376, 958581635, 850538265, 2395028239, 2500922737), (4140555402, 3580505376, 3460870880, 850538265, 2395028239), (324157708, 4140555402, 895126344, 3460870880, 850538265), (1986880403, 324157708, 3182622498, 895126344, 3460870880), (1571675042, 1986880403, 81039427, 3182622498, 895126344), (314989982, 1571675042, 3717945572, 81039427, 3182622498), (3433246322, 314989982, 2540402408, 3717945572, 81039427), (3224106704, 3433246322, 2226231143, 2540402408, 3717945572), (229810197, 3224106704, 3005795228, 2226231143, 2540402408), (88669753, 229810197, 806026676, 3005795228, 2226231143), (3694808675, 88669753, 1131194373, 806026676, 3005795228), (3273649525, 3694808675, 1095909262, 1131194373, 806026676), (2077888293, 3273649525, 4144927640, 1095909262, 1131194373)]

def blkoA : List Nat := [105, 105, 108, 107, 109, 104, 105, 100, 105, 111, 104, 100, 107, 104, 101, 101, 105, 101, 110, 110, 104, 100, 106, 111, 108, 111, 110, 101, 111, 104, 107, 92, 92, 92, 92, 92, 92, 92, 92, 92, 92, 92, 92, 92, 92, 92, 92, 92, 92, 92, 92, 92, 92, 92, 92, 92, 92, 92, 92, 92, 92, 92, 92, 92]

def w16oA : List Nat := [1768516715, 1835559268, 1768908900, 1802003813, 1768255086, 1751411311, 1819242085, 1869114204, 1549556828, 1549556828, 1549556828, 1549556828, 1549556828, 1549556828, 1549556828, 1549556828]

def extoA : List Nat := [788510, 201332738, 1313812, 3199776400, 2863433898, 3062407926, 2779754987, 2341062637, 1829328337, 1398756307, 389781491, 2808333955, 4092049139, 1130785291, 3174581844, 1348758144, 1559132064, 3116332586, 3687773083, 3883616907, 2327311152, 1263794455, 634114507, 67771164, 3676215594, 3499124066, 1982960398, 2965438035, 703647210, 1556141348, 3921296600, 2286130361, 33394794, 3487353398, 1578503737, 975944522, 2459978318, 2602463788, 1518968550, 2633187603, 1872351428, 3926630339, 977806237, 1935966707, 1908558207, 3953795160, 2203412303, 1432137159, 3081821599, 961745889, 1195742299, 3418565140, 24190061, 1443171961, 4211869426, 1168826100, 1757954431, 3059750470, 2462728346, 2005636480, 2332837942, 4101211896, 1891914565, 1163022793]

def troA : List (Nat × Nat × Nat × Nat × Nat) := [(152962334, 1732584193, 2079550178, 2562383102, 271733878), (4158249522, 152962334, 1506887872, 2079550178, 2562383102), (3554242617, 4158249522, 2185724231, 1506887872, 2079550178), (1196282332, 3554242617, 3187046028, 2185724231, 1506887872), (2571787677, 1196282332, 1962302478, 3187046028, 2185724231), (1802538766, 2571787677, 299070583, 1962302478, 3187046028), (1760597102, 1802538766, 1716688743, 299070583, 1962302478), (3485976135, 1760597102, 2598118339, 1716688743, 299070583), (3497858728, 3485976135, 2587632923, 2598118339, 1716688743), (3337644025, 3497858728, 4092719505, 2587632923, 2598118339), (171518595, 3337644025, 874464682, 4092719505, 2587632923), (3444711705, 171518595, 1908152830, 874464682, 4092719505), (2303932521, 3444711705, 3264105120, 1908152830, 874464682), (101925302, 2303932521, 1934919750, 3264105120, 1908152830), (786395507, 101925302, 1649724954, 1934919750, 3264105120), (3366983500, 786395507, 2172964973, 1649724954, 1934919750), (610980351, 3366983500, 3417824348, 2172964973, 1649724954), (535196678, 610980351, 841745875, 3417824348, 2172964973), (3299271856, 535196678, 3373970559, 841745875, 3417824348), (2732185716, 3299271856, 2281282817, 3373970559, 841745875), (825448064, 2732185716, 824817964, 2281282817, 3373970559), (686952309, 825448064, 683046429, 824817964, 2281282817), (3815883491, 686952309, 206362016, 683046429, 824817964), (2781771262, 3815883491, 1245479901, 206362016, 683046429), (1667894273, 2781771262, 4175196344, 1245479901, 206362016), (1391860699, 1667894273, 2842926463, 4175196344, 1245479901), (1641768097, 1391860699, 1490715392, 2842926463, 4175196344), (3991256236, 1641768097, 3569190646, 1490715392, 2842926463), (3064542983, 3991256236, 1484183848, 3569190646, 1490715392), (1097899284, 3064542983, 997814059, 1484183848, 3569190646), (76143735, 1097899284, 3987361217, 997814059, 1484183848), (1083473447, 76143735, 274474821, 3987361217, 997814059), (324095559, 1083473447, 3240261405, 274474821, 3987361217), (307734253, 324095559, 3492093833, 3240261405, 274474821), (2823817974, 307734253, 3302249361, 3492093833, 3240261405), (673183507, 2823817974, 1150675387, 3302249361, 3492093833), (4123496859, 673183507, 2853438141, 1150675387, 3302249361), (4271015900, 4123496859, 3389521348, 2853438141, 1150675387), (1096880552, 4271015900, 4252099686, 3389521348, 2853438141), (318692608, 1096880552, 1067753975, 4252099686, 3389521348), (293574066, 318692608, 274220138, 1067753975, 4252099686), (2685239880, 293574066, 79673152, 274220138, 1067753975), (1461833815, 2685239880, 2220877164, 79673152, 274220138), (3096359371, 1461833815, 671309970, 2220877164, 79673152), (3550895059, 3096359371, 3586683925, 671309970, 2220877164), (2643616377, 3550895059, 3995315314, 3586683925, 671309970), (717759948, 2643616377, 4108949236, 3995315314, 3586683925), (1120937375, 717759948, 1734645918, 4108949236, 3995315314), (1076511356, 1120937375, 179439987, 1734645918, 4108949236), (2618980141, 1076511356, 3501459815, 179439987, 1734645918), (412570333, 2618980141, 269127839, 3501459815, 179439987), (1996353131, 412570333, 1728486859, 269127839, 3501459815), (3795087070, 1996353131, 1176884407, 1728486859, 269127839), (3875043438, 3795087070, 3720313754, 1176884407, 1728486859), (4126180871, 3875043438, 3096255415, 3720313754, 1176884407), (755175266, 4126180871, 3116244507, 3096255415, 3720313754), (915608470, 755175266, 4252770689, 3116244507, 3096255415), (3243571743, 915608470, 2336277464, 4252770689, 3116244507), (1829848604, 3243571743, 2376385765, 2336277464, 4252770689), (728360634, 1829848604, 4032118407, 2376385765, 2336277464), (1166238448, 728360634, 457462151, 4032118407, 2376385765), (3029765845, 1166238448, 2329573806, 457462151, 4032118407), (2768014651, 3029765845, 291559612, 2329573806, 457462151), (163682399, 2768014651, 1831183285, 291559612, 2329573806), (500898614, 163682399, 3913229134, 1831183285, 291559612), (1582640602, 500898614, 3262146071, 3913229134, 1831183285), (2148012960, 1582640602, 2272708301, 3262146071, 3913229134), (2612727880, 2148012960, 2543143798, 2272708301, 3262146071), (2526145416, 2612727880, 537003240, 2543143798, 2272708301), (2789763076, 2526145416, 653181970, 537003240, 2543143798), (3062775876, 2789763076, 631536354, 653181970, 537003240), (2799338812, 3062775876, 697440769, 631536354, 653181970), (4028796834, 2799338812, 765693969, 697440769, 631536354), (1302615688, 4028796834, 699834703, 765693969, 697440769), (797027446, 1302615688, 3154682856, 699834703, 765693969), (937544283, 797027446, 325653922, 3154682856, 699834703), (4231991549, 937544283, 2346740509, 325653922, 3154682856), (2989080921, 4231991549, 3455611542, 2346740509, 325653922), (1307533161, 2989080921, 2131739711, 3455611542, 2346740509), (1516233685, 1307533161, 1821012054, 2131739711, 3455611542)]

def blkoB : List Nat := [146, 104, 237, 220, 210, 210, 56, 240, 171, 55, 153, 3, 87, 182, 247, 214, 220, 193, 150, 3, 128, 0, 0, 0, 0, 0, 0, 0, 0, 0, 0, 0, 0, 0, 0, 0, 0, 0, 0, 0, 0, 0, 0, 0, 0, 0, 0, 0, 0, 0, 0, 0, 0, 0, 0, 0, 0, 0, 0, 0, 0, 0, 2, 160]

def w16oB : List Nat := [2456350172, 3536992496, 2872547587, 1471608790, 3703674371, 2147483648, 0, 0, 0, 0, 0, 0, 0, 0, 0, 672]

def extoB : List Nat := [1925114302, 180985421, 4025228096, 1242578129, 2886733981, 3755488896, 2485156258, 1478501499, 1523433085, 1037291487, 1872264823, 565904728, 596098693, 1619039407, 2387290761, 3806071846, 1312796761, 3867316117, 2641425177, 4103700129, 4201295967, 4094749338, 1753163759, 4203392954, 519386515, 623560187, 1472936098, 1454355851, 3843670864, 1125029218, 4249358697, 932961970, 493471587, 2498906957, 244665004, 2527055270, 3355197275, 2248357340, 985374054, 1603213136, 2762604317, 3147386039, 3348188189, 1328424100, 3362341802, 1779328034, 728293265, 1763672586, 3132501473, 624438171, 3486480320, 3389645439, 539857944, 4170867420, 4276535082, 1514707947, 1110046842, 1590950212, 889177913, 1509995783, 1006625487, 2666039195, 1785852090, 1528930666]

def troB : List (Nat × Nat × Nat × Nat × Nat) := [(983478056, 3248817878, 2406433468, 88427860, 2403473589), (2513566681, 983478056, 2959688117, 2406433468, 88427860), (2057837782, 2513566681, 245869514, 2959688117, 2406433468), (3142974182, 2057837782, 1702133494, 245869514, 2959688117), (3063180806, 3142974182, 2661943093, 1702133494, 245869514), (2581064813, 3063180806, 2933227193, 2661943093, 1702133494), (2847077747, 2581064813, 2913278849, 2933227193, 2661943093), (3742386644, 2847077747, 1719008027, 2913278849, 2933227193), (261566080, 3742386644, 3932994908, 1719008027, 2913278849), (3849527418, 261566080, 935596661, 3932994908, 1719008027), (1464407916, 3849527418, 65391520, 935596661, 3932994908), (1106720420, 1464407916, 3109865502, 65391520, 935596661), (3810142498, 1106720420, 366101979, 3109865502, 65391520), (2072524335, 3810142498, 276680105, 366101979, 3109865502), (2579387807, 2072524335, 3100019272, 276680105, 366101979), (3776266639, 2579387807, 3739356555, 3100019272, 276680105), (3108631239, 3776266639, 3866072423, 3739356555, 3100019272), (1178077228, 3108631239, 4165292131, 3866072423, 3739356555), (4005100879, 1178077228, 3998383281, 4165292131, 3866072423), (1618431537, 4005100879, 294519307, 3998383281, 4165292131), (863868610, 1618431537, 4222500691, 294519307, 3998383281), (923724417, 863868610, 1478349708, 4222500691, 294519307), (2268344721, 923724417, 2363450800, 1478349708, 4222500691), (2365251164, 2268344721, 1304672928, 2363450800, 1478349708), (122304444, 2365251164, 1640828004, 1304672928, 2363450800), (3284697416, 122304444, 591312791, 1640828004, 1304672928), (3942636063, 3284697416, 30576111, 591312791, 1640828004), (864156810, 3942636063, 821174354, 30576111, 591312791), (29321893, 864156810, 4206884487, 821174354, 30576111), (48663870, 29321893, 2363522850, 4206884487, 821174354), (46776636, 48663870, 1081072297, 2363522850, 4206884487), (1947680387, 46776636, 2159649615, 1081072297, 2363522850), (2399249508, 1947680387, 11694159, 2159649615, 1081072297), (1780338675, 2399249508, 3708145568, 11694159, 2159649615), (594844673, 1780338675, 599812377, 3708145568, 11694159), (1737606143, 594844673, 3666310140, 599812377, 3708145568), (313946736, 1737606143, 1222452992, 3666310140, 599812377), (3544523865, 313946736, 3655627007, 1222452992, 3666310140), (2652125269, 3544523865, 78486684, 3655627007, 1222452992), (2195035464, 2652125269, 1959872790, 78486684, 3655627007), (4147979410, 2195035464, 1736773141, 1959872790, 78486684), (124632805, 4147979410, 548758866, 1736773141, 1959872790), (2972008262, 124632805, 3184478500, 548758866, 1736773141), (2548422326, 2972008262, 1104900025, 3184478500, 548758866), (1131752308, 2548422326, 2890485713, 1104900025, 3184478500), (2221431195, 1131752308, 2784589229, 2890485713, 1104900025), (12837219, 2221431195, 282938077, 2784589229, 2890485713), (276197724, 12837219, 3776583270, 282938077, 2784589229), (1646815189, 276197724, 3224434776, 3776583270, 282938077), (975879694, 1646815189, 69049431, 3224434776, 3776583270), (73128970, 975879694, 1485445621, 69049431, 3224434776), (2305990769, 73128970, 2391453571, 1485445621, 69049431), (2517910594, 2305990769, 2165765890, 2391453571, 1485445621), (3108256770, 2517910594, 1650239516, 2165765890, 2391453571), (50228766, 3108256770, 2776961296, 1650239516, 2165765890), (1892927230, 50228766, 2924547840, 2776961296, 1650239516), (1466979059, 1892927230, 2160040839, 2924547840, 2776961296), (2132281491, 1466979059, 2620715455, 2160040839, 2924547840), (2083782175, 2132281491, 3587970236, 2620715455, 2160040839), (3265614261, 2083782175, 3754295844, 3587970236, 2620715455), (4191491710, 3265614261, 3742171015, 3754295844, 3587970236), (123713193, 4191491710, 1890145389, 3742171015, 3754295844), (402208319, 123713193, 3195356575, 1890145389, 3742171015), (3677991588, 402208319, 1104670122, 3195356575, 1890145389), (1163146953, 3677991588, 3321777551, 1104670122, 3195356575), (3081182905, 1163146953, 919497897, 3321777551, 1104670122), (2270303845, 3081182905, 1364528562, 919497897, 3321777551), (350895670, 2270303845, 1844037550, 1364528562, 919497897), (2056611282, 350895670, 1641317785, 1844037550, 1364528562), (2144757940, 2056611282, 2235207565, 1641317785, 1844037550), (3497774851, 2144757940, 2661636468, 2235207565, 1641317785), (4198728225, 3497774851, 536189485, 2661636468, 2235207565), (727882358, 4198728225, 4095669184, 536189485, 2661636468), (1171803935, 727882358, 2123423880, 4095669184, 536189485), (2085523554, 1171803935, 2329454237, 2123423880, 4095669184), (1407483894, 2085523554, 3514176455, 2329454237, 2123423880), (694397231, 1407483894, 2668864536, 3514176455, 2329454237), (1041948188, 694397231, 2499354621, 2668864536, 3514176455), (3962543272, 1041948188, 3394824779, 2499354621, 2668864536), (2873542687, 3962543272, 260487047, 3394824779, 2499354621)]

/-- Chaining state after block iA. -/
def stiA : Sha1State := (378461879, 263342971, 3022587243, 375699528, 2572479998)

theorem compress_iA : sha1compress sha1init blkiA = stiA := by
  rw [sha1compress_eval sha1init blkiA w16iA extiA triA (by decide) (by decide) (by decide)
    (by decide)]
  decide

/-- Chaining state after block iB. -/
def stiB : Sha1State := (2456350172, 3536992496, 2872547587, 1471608790, 3703674371)

theorem compress_iB : sha1compress stiA blkiB = stiB := by
  rw [sha1compress_eval stiA blkiB w16iB extiB triB (by decide) (by decide) (by decide)
    (by decide)]
  decide

/-- Chaining state after block oA. -/
def stoA : Sha1State := (3248817878, 1035799282, 88427860, 2403473589, 2446021766)

theorem compress_oA : sha1compress sha1init blkoA = stoA := by
  rw [sha1compress_eval sha1init blkoA w16oA extoA troA (by decide) (by decide) (by decide)
    (by decide)]
  decide

/-- Chaining state after block oB. -/
def stoB : Sha1State := (1827393269, 703375258, 348914907, 1503331072, 650409091)

theorem compress_oB : sha1compress stoA blkoB = stoB := by
  rw [sha1compress_eval stoA blkoB w16oB extoB troB (by decide) (by decide) (by decide)
    (by decide)]
  decide

/-- The zero-padded-to-64-bytes ipad-masked HMAC key. -/
def totpIpadded : List Nat := [3, 3, 6, 1, 7, 2, 3, 14, 3, 5, 2, 14, 1, 2, 15, 15, 3, 15, 4, 4, 2, 14, 0, 5, 6, 5, 4, 15, 5, 2, 1, 54, 54, 54, 54, 54, 54, 54, 54, 54, 54, 54, 54, 54, 54, 54, 54, 54, 54, 54, 54, 54, 54, 54, 54, 54, 54, 54, 54, 54, 54, 54, 54, 54]

/-- The zero-padded-to-64-bytes opad-masked HMAC key. -/
def totpOpadded : List Nat := [105, 105, 108, 107, 109, 104, 105, 100, 105, 111, 104, 100, 107, 104, 101, 101, 105, 101, 110, 110, 104, 100, 106, 111, 108, 111, 110, 101, 111, 104, 107, 92, 92, 92, 92, 92, 92, 92, 92, 92, 92, 92, 92, 92, 92, 92, 92, 92, 92, 92, 92, 92, 92, 92, 92, 92, 92, 92, 92, 92, 92, 92, 92, 92]

/-- SHA-1 padding of the inner HMAC message. -/
def totpInnerPadded : List Nat := [3, 3, 6, 1, 7, 2, 3, 14, 3, 5, 2, 14, 1, 2, 15, 15, 3, 15, 4, 4, 2, 14, 0, 5, 6, 5, 4, 15, 5, 2, 1, 54, 54, 54, 54, 54, 54, 54, 54, 54, 54, 54, 54, 54, 54, 54, 54, 54, 54, 54, 54, 54, 54, 54, 54, 54, 54, 54, 54, 54, 54, 54, 54, 54, 0, 0, 0, 0, 3, 101, 192, 64, 128, 0, 0, 0, 0, 0, 0, 0, 0, 0, 0, 0, 0, 0, 0, 0, 0, 0, 0, 0, 0, 0, 0, 0, 0, 0, 0, 0, 0, 0, 0, 0, 0, 0, 0, 0, 0, 0, 0, 0, 0, 0, 0, 0, 0, 0, 0, 0, 0, 0, 0, 0, 0, 0, 2, 64]

/-- SHA-1 padding of the outer HMAC message. -/
def totpOuterPadded : List Nat := [105, 105, 108, 107, 109, 104, 105, 100, 105, 111, 104, 100, 107, 104, 101, 101, 105, 101, 110, 110, 104, 100, 106, 111, 108, 111, 110, 101, 111, 104, 107, 92, 92, 92, 92, 92, 92, 92, 92, 92, 92, 92, 92, 92, 92, 92, 92, 92, 92, 92, 92, 92, 92, 92, 92, 92, 92, 92, 92, 92, 92, 92, 92, 92, 146, 104, 237, 220, 210, 210, 56, 240, 171, 55, 153, 3, 87, 182, 247, 214, 220, 193, 150, 3, 128, 0, 0, 0, 0, 0, 0, 0, 0, 0, 0, 0, 0, 0, 0, 0, 0, 0, 0, 0, 0, 0, 0, 0, 0, 0, 0, 0, 0, 0, 0, 0, 0, 0, 0, 0, 0, 0, 0, 0, 0, 0, 2, 160]

/-- Digest of the inner HMAC hash. -/
def totpInnerDig : List Nat := [146, 104, 237, 220, 210, 210, 56, 240, 171, 55, 153, 3, 87, 182, 247, 214, 220, 193, 150, 3]

/-- The final HMAC-SHA1 digest for time bucket 57000000. -/
def totpDigest : List Nat := [108, 235, 206, 245, 41, 236, 167, 154, 20, 204, 4, 219, 89, 155, 3, 0, 38, 196, 116, 131]

/-- Certify a two-block SHA-1 digest from per-block compression facts. -/
theorem sha1_eval2 (msg padded b1 b2 : List Nat) (st1 st2 : Sha1State) (digest : List Nat)
    (hpad : sha1pad msg = padded) (hchunks : chunks64 padded.length padded = [b1, b2])
    (hc1 : sha1compress sha1init b1 = st1) (hc2 : sha1compress st1 b2 = st2)
    (hdig : sha1out st2 = digest) : sha1 msg = digest := by
  unfold sha1
  rw [hpad, hchunks]
  simp only [List.foldl_cons, List.foldl_nil]
  rw [hc1, hc2, hdig]

theorem sha1_inner_eval : sha1 (totpIpadded ++ be64 57000000) = totpInnerDig := by
  exact sha1_eval2 _ totpInnerPadded blkiA blkiB stiA stiB totpInnerDig (by decide) (by decide)
    compress_iA compress_iB (by decide)

theorem sha1_outer_eval : sha1 (totpOpadded ++ totpInnerDig) = totpDigest := by
  exact sha1_eval2 _ totpOuterPadded blkoA blkoB stoA stoB totpDigest (by decide) (by decide)
    compress_oA compress_oB (by decide)

/-- Certify an HMAC-SHA1 digest for a short key from the two inner digests. -/
theorem hmac_eval (key msg ipadded opadded innerDig digest : List Nat)
    (hkey : ¬ key.length > 64)
    (hip : (key ++ List.replicate (64 - key.length) 0).map (fun b => b ^^^ 0x36) = ipadded)
    (hop : (key ++ List.replicate (64 - key.length) 0).map (fun b => b ^^^ 0x5C) = opadded)
    (hinner : sha1 (ipadded ++ msg) = innerDig)
    (houter : sha1 (opadded ++ innerDig) = digest) :
    hmac_sha1 key msg = digest := by
  unfold hmac_sha1 hmacKeyPad
  rw [if_neg hkey, hip, hop, hinner, houter]

/-! The TOTP path of src/utils/autoplay_apis.py (lines 25-79). -/

/-- The Spotify TOTP secret (src/utils/autoplay_apis.py line 26), the ASCII
bytes of the digit string. -/
def SPOTIFY_TOTP_SECRET : List Nat := "5507145853487499592248630329347".data.map Char.toNat

/-- The 30-second counter time_val = int(time.time() // 30) (line 67), as a
function of the unix time in seconds. -/
def totp_counter (unixTimeSeconds : Nat) : Nat := unixTimeSeconds / 30

/-- The HMAC-SHA1 digest over the 8-byte big-endian counter with the fixed
secret (lines 68-69). -/
def totp_hash (time_val : Nat) : List Nat := hmac_sha1 SPOTIFY_TOTP_SECRET (be64 time_val)

/-- Dynamic truncation (lines 71-77): the offset is the low 4 bits of the last
digest byte (index 19 of the 20-byte digest); 4 bytes are read big-endian at
that offset with the top bit of the first byte masked off. -/
def totp_trunc (hash_bytes : List Nat) : Nat :=
  let offset := hash_bytes.getD 19 0 &&& 0xf
  ((hash_bytes.getD offset 0 &&& 0x7f) <<< 24) |||
    ((hash_bytes.getD (offset + 1) 0 &&& 0xff) <<< 16) |||
    ((hash_bytes.getD (offset + 2) 0 &&& 0xff) <<< 8) |||
    (hash_bytes.getD (offset + 3) 0 &&& 0xff)

/-- The integer value bound to code in create_totp (lines 71-77). -/
def totp_code (time_val : Nat) : Nat := totp_trunc (totp_hash time_val)

/-- The attribute access int.zfill applied to code % 1_000_000: Python ints
have no zfill attribute, so the lookup raises AttributeError (Python renders
the message with quotes around int and zfill). -/
def intZfill (code width : Nat) : Except String String :=
  Except.error "AttributeError: int object has no attribute zfill"

/-- create_totp (src/utils/autoplay_apis.py lines 65-79), at 30-second bucket
time_val: the return expression applies .zfill(6) to the int code % 1_000_000,
so every call raises AttributeError instead of building the pair. -/
def create_totp (time_val : Nat) : Except String (String × Nat) :=
  match intZfill (totp_code time_val % 1000000) 6 with
  | .error e => .error e
  | .ok s => .ok (s, time_val * 30000)

/-- Left zero-padding to width w, Python str.zfill on an unsigned digit string. -/
def zfill (w : Nat) (s : String) : String :=
  String.mk (List.replicate (w - s.length) '0') ++ s

/-- The return value create_totp is evidently intended to produce, repairing
the slip by stringifying the int before zfill
(str(code % 1_000_000).zfill(6), time_val * 30000). -/
def create_totp_fixed (time_val : Nat) : String × Nat :=
  (zfill 6 (toString (totp_code time_val % 1000000)), time_val * 30000)

/-- The TOTP digest at bucket 57000000 equals the independently computed
reference HMAC-SHA1 value. -/
theorem totp_hash_57000000 : totp_hash 57000000 = totpDigest := by
  unfold totp_hash
  exact hmac_eval SPOTIFY_TOTP_SECRET (be64 57000000) totpIpadded totpOpadded totpInnerDig
    totpDigest (by decide) (by decide) (by decide) sha1_inner_eval sha1_outer_eval

/-- The truncated TOTP value at bucket 57000000. -/
theorem totp_code_57000000 : totp_code 57000000 = 1965681831 := by
  unfold totp_code
  rw [totp_hash_57000000]
  decide

/-! Providers (src/providers/base.py, youtube.py, spotify.py, soundcloud.py).
Each provider's injected dependency is an oracle parameter, and each modelled
entry point also returns the number of calls made on that dependency. -/

/-- The candidate-track dictionary a provider builds from a search result's
track.info (identifier, title, author, uri, length, with getattr defaults). -/
structure TrackCand where
  identifier : String
  title : String
  author : String
  uri : String
  length : Nat
deriving DecidableEq, Repr

/-- The injected Euralink search client (eura.search) as a response oracle:
for a query it either raises or returns the result tracks, each carrying a
usable info object (some) or a missing/falsy one (none).  The empty list also
covers a falsy results object. -/
abbrev SearchOracle := String → Except String (List (Option TrackCand))

/-- BaseProvider.create_success_result (src/providers/base.py lines 17-31),
with the track_id argument both call sites supply. -/
def create_success_result (source : AutoplaySource) (url track_id : String) : AutoplayResult :=
  { success := true, url := some url, source := some source, track_id := some track_id }

/-- BaseProvider.create_error_result (src/providers/base.py lines 33-44). -/
def create_error_result (source : AutoplaySource) (error : String) : AutoplayResult :=
  { success := false, error := some error, source := some source }

/-- BaseProvider.validate_track_info (src/providers/base.py lines 51-55). -/
def validate_track_info (track_info : Option LavalinkTrackInfo) : Bool :=
  match track_info with
  | none => false
  | some t => t.title ≠ "" && t.author ≠ ""

/-- ASCII whitespace, the regex class backslash-s restricted to ASCII. -/
def isPySpace (c : Char) : Bool :=
  c = ' ' || c = '\t' || c = '\n' || c = '\r' || c = '\x0b' || c = '\x0c'

/-- Python str.strip: remove whitespace from both ends. -/
def pyStrip (s : String) : String :=
  String.mk (((s.data.dropWhile isPySpace).reverse.dropWhile isPySpace).reverse)

/-- A regex word character, ASCII fragment of the class backslash-w. -/
def isWordChar (c : Char) : Bool := c.isAlphanum || c = '_'

/-- Replace each whitespace run by a single space (the re.sub collapsing
whitespace); the flag records whether the previous character was whitespace. -/
def collapseWsAux : Bool → List Char → List Char
  | _, [] => []
  | prevWs, c :: t =>
    if isPySpace c then
      if prevWs then collapseWsAux true t else ' ' :: collapseWsAux true t
    else c :: collapseWsAux false t

/-- YouTubeProvider.create_search_query (src/providers/youtube.py lines
22-32): concatenate title and author, strip, drop characters outside
word/space/hyphen, collapse whitespace. -/
def create_search_query (ti : LavalinkTrackInfo) : String :=
  let query := pyStrip (ti.title ++ " " ++ ti.author)
  let q1 := query.data.filter (fun c => isWordChar c || isPySpace c || c = '-')
  String.mk (collapseWsAux false q1)

/-- YouTubeProvider.get_youtube_autoplay_tracks (src/providers/youtube.py
lines 34-70): search, keep the first 10 results, drop entries without a usable
info or identifier and excluded identifiers, return up to 5.  A raising search
is caught and yields the empty list. -/
def get_youtube_autoplay_tracks (eura : Option SearchOracle) (ti : LavalinkTrackInfo)
    (exclude_ids : List String) : List TrackCand × Nat :=
  match eura with
  | none => ([], 0)
  | some search =>
    let query := create_search_query ti
    if query = "" then ([], 0)
    else
      match search query with
      | .error _ => ([], 1)
      | .ok results =>
        let tracks := ((results.take 10).filterMap id).filter
          (fun t => t.identifier != "" && !(exclude_ids.contains t.identifier))
        (tracks.take 5, 1)

/-- YouTubeProvider.get_next_track (src/providers/youtube.py lines 72-102);
rand models random.choice as an index into the nonempty candidate list. -/
def yt_get_next_track (eura : Option SearchOracle) (rand : Nat)
    (track_info : Option LavalinkTrackInfo) (exclude_ids : List String) :
    AutoplayResult × Nat :=
  if validate_track_info track_info = false then
    (create_error_result .YOUTUBE "Invalid track info provided", 0)
  else
    match track_info with
    | none => (create_error_result .YOUTUBE "Invalid track info provided", 0)
    | some t =>
      match get_youtube_autoplay_tracks eura t exclude_ids with
      | ([], calls) => (create_error_result .YOUTUBE "No YouTube autoplay tracks found", calls)
      | (tracks, calls) =>
        let selected := tracks.getD (rand % tracks.length) ⟨"", "", "", "", 0⟩
        (create_success_result .YOUTUBE selected.uri selected.identifier, calls)

/-- SpotifyProvider.resolve_with_lavalink (src/providers/spotify.py lines
28-58): search sprec:id, take the first result if it has a usable info;
raising searches are caught and yield None. -/
def resolve_with_lavalink (eura : Option SearchOracle) (track_id : String) :
    Option TrackCand × Nat :=
  match eura with
  | none => (none, 0)
  | some search =>
    match search ("sprec:" ++ track_id) with
    | .error _ => (none, 1)
    | .ok [] => (none, 1)
    | .ok (none :: _) => (none, 1)
    | .ok (some info :: _) => (some info, 1)

/-- SpotifyProvider.get_spotify_autoplay_tracks (src/providers/spotify.py
lines 60-86): single-shot resolution; an excluded identifier yields the empty
list with no second attempt. -/
def get_spotify_autoplay_tracks (eura : Option SearchOracle) (ti : LavalinkTrackInfo)
    (exclude_ids : List String) : List TrackCand × Nat :=
  match eura with
  | none => ([], 0)
  | some _ =>
    if ti.identifier = "" then ([], 0)
    else
      match resolve_with_lavalink eura ti.identifier with
      | (none, calls) => ([], calls)
      | (some selected, calls) =>
        if exclude_ids.contains selected.identifier then ([], calls)
        else ([selected], calls)

/-- SpotifyProvider.get_next_track (src/providers/spotify.py lines 88-118). -/
def sp_get_next_track (eura : Option SearchOracle) (track_info : Option LavalinkTrackInfo)
    (exclude_ids : List String) : AutoplayResult × Nat :=
  if validate_track_info track_info = false then
    (create_error_result .SPOTIFY "Invalid track info provided", 0)
  else
    match track_info with
    | none => (create_error_result .SPOTIFY "Invalid track info provided", 0)
    | some t =>
      match get_spotify_autoplay_tracks eura t exclude_ids with
      | ([], calls) => (create_error_result .SPOTIFY "No Spotify autoplay tracks found", calls)
      | (selected :: _, calls) =>
        (create_success_result .SPOTIFY selected.uri selected.identifier, calls)

/-- Consume lit from the front of cs, or fail. -/
def litMatch (lit cs : List Char) : Option (List Char) :=
  if lit.isPrefixOf cs then some (cs.drop lit.length) else none

/-- re.search for the pattern of a /tracks/ path segment followed by one or
more digits: the leftmost such position wins and the capture is the maximal
digit run there. -/
def findTracksId : List Char → Option String
  | [] => none
  | c :: t =>
    match litMatch "/tracks/".data (c :: t) with
    | some rest =>
      let ds := rest.takeWhile Char.isDigit
      if ds.isEmpty then findTracksId t else some (String.mk ds)
    | none => findTracksId t

/-- SoundCloudProvider.extract_track_id (src/providers/soundcloud.py lines
18-21). -/
def extract_track_id (url : String) : Option String := findTracksId url.data

/-- Python str.title on ASCII text: upper-case the first letter of each
alphabetic run, lower-case the rest; the flag records whether the previous
character was alphabetic. -/
def pyTitleAux : Bool → List Char → List Char
  | _, [] => []
  | prevAlpha, c :: t =>
    if c.isAlpha then (if prevAlpha then c.toLower else c.toUpper) :: pyTitleAux true t
    else c :: pyTitleAux false t

/-- Python str.title over a whole string. -/
def pyTitle (s : String) : String := String.mk (pyTitleAux false s.data)

/-- Python str.split with an explicit separator character: adjacent or edge
separators produce empty segments, exactly as in Python. -/
def splitOnChar (sep : Char) : List Char → List (List Char)
  | [] => [[]]
  | c :: t =>
    if c = sep then [] :: splitOnChar sep t
    else
      match splitOnChar sep t with
      | [] => [[c]]
      | seg :: rest => (c :: seg) :: rest

/-- The last component of str.split on a slash. -/
def lastSlashSegment (url : String) : String :=
  String.mk ((splitOnChar '/' url.data).getLastD [])

/-- Python str.replace with the one-character pattern and replacement the
source uses (replace a hyphen by a space). -/
def replaceChar (pat rep : Char) (s : String) : String :=
  String.mk (s.data.map (fun c => if c = pat then rep else c))

/-- The sc_auto_play call as the SoundCloud provider observes it: sc_auto_play
traps every exception internally and returns a recommended URL or None, so it
is an oracle from the base url to that optional value. -/
abbrev ScAutoOracle := String → Option String

/-- SoundCloudProvider.get_soundcloud_autoplay_tracks (src/providers/
soundcloud.py lines 23-57), counting sc_auto_play invocations.  The candidate
identifier is the extracted numeric track id or the empty string. -/
def get_soundcloud_autoplay_tracks (sc_rec : ScAutoOracle) (ti : LavalinkTrackInfo)
    (exclude_ids : List String) : List TrackCand × Nat :=
  if ti.uri = "" then ([], 0)
  else
    match sc_rec ti.uri with
    | none => ([], 1)
    | some recommended_url =>
      let track_id := extract_track_id recommended_url
      if (match track_id with
          | some tid => tid != "" && exclude_ids.contains tid
          | none => false) then ([], 1)
      else
        let track_name := pyTitle (replaceChar '-' ' ' (lastSlashSegment recommended_url))
        ([⟨(track_id.getD ""), track_name,
          (if ti.author = "" then "Unknown Artist" else ti.author), recommended_url, 0⟩], 1)

/-- SoundCloudProvider.get_next_track (src/providers/soundcloud.py lines
59-88). -/
def sc_get_next_track (sc_rec : ScAutoOracle) (track_info : Option LavalinkTrackInfo)
    (exclude_ids : List String) : AutoplayResult × Nat :=
  if validate_track_info track_info = false then
    (create_error_result .SOUNDCLOUD "Invalid track info provided", 0)
  else
    match track_info with
    | none => (create_error_result .SOUNDCLOUD "Invalid track info provided", 0)
    | some t =>
      match get_soundcloud_autoplay_tracks sc_rec t exclude_ids with
      | ([], calls) => (create_error_result .SOUNDCLOUD "No SoundCloud autoplay tracks found", calls)
      | (selected :: _, calls) =>
        (create_success_result .SOUNDCLOUD selected.uri selected.identifier, calls)

/-! The dispatch engine (src/autoplay.py lines 96-143). -/

/-- An emitted event, retaining the payload fields the claims inspect: the
source string, the track info and the result (success) or error entry
(error); src/autoplay.py lines 121-132 and 138-142. -/
inductive EmittedEvent where
  | success (source : String) (track_info : Option LavalinkTrackInfo) (result : AutoplayResult)
  | error (source : String) (track_info : Option LavalinkTrackInfo) (error : Option String)
deriving DecidableEq, Repr

/-- Python str() of an AutoplaySource member, as interpolated in the
no-provider error message. -/
def AutoplaySource.pyStr : AutoplaySource → String
  | .YOUTUBE => "AutoplaySource.YOUTUBE"
  | .SPOTIFY => "AutoplaySource.SPOTIFY"
  | .SOUNDCLOUD => "AutoplaySource.SOUNDCLOUD"

/-- A provider bound in the providers dict, by the behavior of its
get_next_track coroutine on the given arguments: it either raises or returns
a result. -/
abbrev ProviderFun := LavalinkTrackInfo → List String → Except String AutoplayResult

/-- The try-guarded body of LavalinkAutoplay.get_next_track (src/autoplay.py
lines 98-134); an Except.error escaping this body is an exception reaching
the except handler.  The event emitter itself never raises: emit wraps every
listener call in its own try (src/events.py lines 30-40). -/
def get_next_track_body (order : List String → List String) (max_history_size : Nat)
    (providers : AutoplaySource → Option ProviderFun) (h : Hist)
    (track_info : Option LavalinkTrackInfo) (guild_id : String) :
    Except String (AutoplayResult × List EmittedEvent × Hist) :=
  match track_info with
  | none => .ok ({ success := false, error := some "No track info provided" }, [], h)
  | some ti =>
    let source := map_source_name ti.source_name (some ti)
    let exclude_ids := histGet h guild_id
    match providers source with
    | none =>
      .ok ({ success := false, error := some ("No provider for source: " ++ source.pyStr) },
        [], h)
    | some provider =>
      match provider ti exclude_ids with
      | .error e => .error e
      | .ok result =>
        if result.success && optStrTruthy result.track_id then
          .ok (result, [.success source.value (some ti) result],
            add_to_history order max_history_size h guild_id (result.track_id.getD ""))
        else
          .ok (result, [.error source.value (some ti) result.error], h)

/-- LavalinkAutoplay.get_next_track (src/autoplay.py lines 96-143) including
its except handler: an exception from the body becomes a failure result with
the diagnostic message, an error event is emitted, and the history is left
unchanged. -/
def get_next_track (order : List String → List String) (max_history_size : Nat)
    (providers : AutoplaySource → Option ProviderFun) (h : Hist)
    (track_info : Option LavalinkTrackInfo) (guild_id : String) :
    AutoplayResult × List EmittedEvent × Hist :=
  match get_next_track_body order max_history_size providers h track_info guild_id with
  | .ok out => out
  | .error e =>
    ({ success := false, error := some ("Autoplay error: " ++ e) },
      [.error (match track_info with | some ti => ti.source_name | none => "unknown")
        track_info (some ("Autoplay error: " ++ e))], h)

/-! sp_auto_play and sc_auto_play (src/utils/autoplay_apis.py). -/

/-- sp_auto_play (src/utils/autoplay_apis.py lines 82-116) at time bucket
time_val.  fetchTok and fetchRec are the two fast_fetch calls (fetchRec takes
the bearer token and the seed id); evalTok models eval(token_data) followed by
.get(accessToken), and evalRec models eval(rec_data) followed by the tracks
lookup, as oracles, because the source parses both bodies by evaluating them
as Python code; randIdx models random.choice.  create_totp is called on line
84, before the try statement, so its exception propagates out uncaught. -/
def sp_auto_play (time_val : Nat) (fetchTok : Except String String)
    (evalTok : String → Except String (Option String))
    (fetchRec : String → String → Except String String)
    (evalRec : String → Except String (List String))
    (randIdx : Nat) (seed_id : String) : Except String (Option String) :=
  match create_totp time_val with
  | .error e => .error e
  | .ok _ =>
    match
      (match fetchTok with
      | .error e => Except.error e
      | .ok token_data =>
        match evalTok token_data with
        | .error e => Except.error e
        | .ok token =>
          if optStrTruthy token = false then Except.error "No access token from Spotify"
          else
            match fetchRec (token.getD "") seed_id with
            | .error e => Except.error e
            | .ok rec_data =>
              match evalRec rec_data with
              | .error e => Except.error e
              | .ok tracks =>
                if tracks.isEmpty then Except.error "No recommended tracks received."
                else Except.ok (some (tracks.getD (randIdx % tracks.length) "")))
    with
    | .ok v => .ok v
    | .error _ => .ok none

/-- A whitespace run: at least one whitespace character, consumed greedily
(in the pattern each run is followed by a non-whitespace literal, so greedy
matching without backtracking is exact). -/
def wsPlus : List Char → Option (List Char)
  | c :: t => if isPySpace c then some (t.dropWhile isPySpace) else none
  | [] => none

/-- Attempt to match SC_LINK_PATTERN (src/utils/autoplay_apis.py line 23), the
anchor-tag regex, at the head of cs: on success return the capture group (the
quoted path beginning with a slash) and the remainder after the closing quote.
The captured character class excludes the quote, so greedy matching is exact. -/
def scMatchAt (cs : List Char) : Option (String × List Char) :=
  match litMatch "<a".data cs with
  | none => none
  | some r1 =>
    match wsPlus r1 with
    | none => none
    | some r2 =>
      match litMatch "itemprop=\"url\"".data r2 with
      | none => none
      | some r3 =>
        match wsPlus r3 with
        | none => none
        | some r4 =>
          match litMatch "href=\"".data r4 with
          | none => none
          | some r5 =>
            match r5 with
            | '/' :: rest =>
              let body := rest.takeWhile (fun c => c != '"')
              let after := rest.dropWhile (fun c => c != '"')
              if body.isEmpty then none
              else
                match after with
                | '"' :: r6 => some (String.mk ('/' :: body), r6)
                | _ => none
            | _ => none

/-- The finditer loop of sc_auto_play (src/utils/autoplay_apis.py lines
47-53): scan left to right, append one absolutized URL per pattern match,
stop once MAX_SC_LINKS = 20 links are collected.  The fuel bounds the scan
and never runs out when it starts at the list length, since every step
consumes at least one character. -/
def sc_collect : Nat → List Char → List String → List String
  | 0, _, found => found
  | _ + 1, [], found => found
  | fuel + 1, c :: t, found =>
    match scMatchAt (c :: t) with
    | some (grp, rest) =>
      let found2 := found ++ ["https://soundcloud.com" ++ grp]
      if found2.length ≥ 20 then found2
      else sc_collect fuel rest found2
    | none => sc_collect fuel t found

/-- The candidate URLs sc_auto_play gathers from an HTML body. -/
def sc_links (html : String) : List String := sc_collect html.data.length html.data []

/-- sc_auto_play (src/utils/autoplay_apis.py lines 44-62): fetch the
base_url/recommended page (fetchPage oracle, raising on failure), collect the
matched links, raise if none, pick one at random (randIdx); every exception
is trapped and turned into None. -/
def sc_auto_play (fetchPage : String → Except String String) (randIdx : Nat)
    (base_url : String) : Option String :=
  match fetchPage (base_url ++ "/recommended") with
  | .error _ => none
  | .ok html =>
    match sc_links html with
    | [] => none
    | found => some (found.getD (randIdx % found.length) "")

/-! Claim theorems. -/

/-- C1: the claim asserts FIFO eviction — after inserting max_history_size + k
distinct ids the session holds exactly the max_history_size most recently
inserted ones.  The source keeps each session history in a Python set, whose
iteration order is unspecified (string hashing is even randomized per
process), and trims with list(set)[-max_history_size:], so which ids survive
depends on that arbitrary order, not on insertion order — despite the source
comment saying it removes the oldest entries.  Demonstrated with the
legitimate iteration order List.reverse (a permutation of the contents, as
every set iteration order is): with max_history_size = 2, inserting the
distinct ids a, b, c into session g leaves exactly the 2 ids b and a, so the
most recently inserted id c is the one evicted; the size cap itself holds. -/
theorem C1_history_eviction_not_fifo :
    (∀ l : List String, (List.reverse l).Perm l) ∧
    histGet (add_to_history List.reverse 2 (add_to_history List.reverse 2
      (add_to_history List.reverse 2 [] "g" "a") "g" "b") "g" "c") "g" = ["b", "a"] ∧
    ¬ ("c" ∈ histGet (add_to_history List.reverse 2 (add_to_history List.reverse 2
      (add_to_history List.reverse 2 [] "g" "a") "g" "b") "g" "c") "g") ∧
    (histGet (add_to_history List.reverse 2 (add_to_history List.reverse 2
      (add_to_history List.reverse 2 [] "g" "a") "g" "b") "g" "c") "g").length = 2 := by
  refine ⟨fun l => List.reverse_perm l, ?_, ?_, ?_⟩ <;> decide

/-- The suffix just after the first occurrence of needle, if any. -/
def afterSub (needle : List Char) : List Char → Option (List Char)
  | [] => if needle.isEmpty then some [] else none
  | c :: t =>
    if needle.isPrefixOf (c :: t) then some ((c :: t).drop needle.length)
    else afterSub needle t

/-- The host component of a URI: the text after the scheme separator, up to
the next slash, question mark or hash. -/
def hostOf (uri : String) : String :=
  let rest := (afterSub "://".data uri.data).getD uri.data
  String.mk (rest.takeWhile (fun c => c != '/' && c != '?' && c != '#'))

/-- The claim as stated, for the empty-label case: inspect the URI HOST for
each catalog's domain substrings.  Written from the claim's words for
comparison with map_source_name; the alias branch is the shared one. -/
def resolveSource_claim_host (source_name : String) (track_info : Option LavalinkTrackInfo) :
    AutoplaySource :=
  if source_name = "" then
    match track_info with
    | some ti =>
      if ti.uri ≠ "" then
        let host := pyLower (hostOf ti.uri)
        if strContains host "youtube.com" || strContains host "youtu.be" then .YOUTUBE
        else if strContains host "spotify.com" then .SPOTIFY
        else if strContains host "soundcloud.com" then .SOUNDCLOUD
        else .YOUTUBE
      else .YOUTUBE
    | none => .YOUTUBE
  else
    let source_lower := pyLower source_name
    if source_lower ∈ ["youtube", "yt", "ytsearch", "ytmsearch"] then .YOUTUBE
    else if source_lower ∈ ["spotify", "sp", "spsearch", "sprec"] then .SPOTIFY
    else if source_lower ∈ ["soundcloud", "sc", "scsearch"] then .SOUNDCLOUD
    else .YOUTUBE

/-- C2 counterexample: with an empty label and the URI
https://example.com/watch?ref=spotify.com — whose host example.com matches no
catalog domain — the code returns SPOTIFY, because it searches the whole URI
string rather than the host; the claim's host-restricted sniffing would fall
through to the YOUTUBE default. -/
theorem C2_counterexample :
    hostOf "https://example.com/watch?ref=spotify.com" = "example.com" ∧
    map_source_name ""
      (some ⟨"", "", "", "https://example.com/watch?ref=spotify.com", ""⟩) = .SPOTIFY ∧
    resolveSource_claim_host ""
      (some ⟨"", "", "", "https://example.com/watch?ref=spotify.com", ""⟩) = .YOUTUBE ∧
    map_source_name ""
        (some ⟨"", "", "", "https://example.com/watch?ref=spotify.com", ""⟩) ≠
      resolveSource_claim_host ""
        (some ⟨"", "", "", "https://example.com/watch?ref=spotify.com", ""⟩) := by
  refine ⟨?_, ?_, ?_, ?_⟩ <;> decide

/-- The amended claim as a function: the alias table (case-insensitive); for
an empty label, substring sniffing over the ENTIRE lower-cased URI (not just
the host); otherwise the deterministic YOUTUBE default. -/
def resolveSource_amended (source_name : String) (track_info : Option LavalinkTrackInfo) :
    AutoplaySource :=
  if source_name = "" then
    match track_info with
    | some ti =>
      if ti.uri ≠ "" then
        let uri := pyLower ti.uri
        if strContains uri "youtube.com" || strContains uri "youtu.be" then .YOUTUBE
        else if strContains uri "spotify.com" then .SPOTIFY
        else if strContains uri "soundcloud.com" then .SOUNDCLOUD
        else .YOUTUBE
      else .YOUTUBE
    | none => .YOUTUBE
  else
    let source_lower := pyLower source_name
    if source_lower ∈ ["youtube", "yt", "ytsearch", "ytmsearch"] then .YOUTUBE
    else if source_lower ∈ ["spotify", "sp", "spsearch", "sprec"] then .SPOTIFY
    else if source_lower ∈ ["soundcloud", "sc", "scsearch"] then .SOUNDCLOUD
    else .YOUTUBE

/-- C2 amended: map_source_name is total and deterministic and coincides with
the amended specification on every label and track: alias strings map to
their canonical source case-insensitively, an empty label falls back to
substring sniffing over the entire lower-cased URI, and every other input
returns YOUTUBE. -/
theorem C2_map_source_name_amended :
    ∀ s ti, map_source_name s ti = resolveSource_amended s ti := by
  intro s ti
  unfold map_source_name resolveSource_amended
  by_cases hs : s = ""
  · simp [hs]
  · simp only [if_neg hs, List.mem_cons, List.not_mem_nil, or_false, List.mem_singleton]

/-- C9 counterexample: clear_history called with an empty session key is not
a no-op — it clears every session (the code clears the whole dict whenever
the argument is falsy, matching its docstring about clearing all guilds). -/
theorem C9_counterexample :
    clear_history [("g", ["t"])] (some "") = [] ∧
    clear_history [("g", ["t"])] (some "") ≠ [("g", ["t"])] ∧
    clear_history [("g", ["t"])] none = [] := by
  refine ⟨?_, ?_, ?_⟩ <;> decide

/-- C9 amended: add_to_history and is_in_history are no-ops on an empty guild
id or track id — the state is unchanged and lookups return false — for every
state, oracle and cap; but clear_history given a missing or empty session key
clears the entire history (its documented clear-all behavior) rather than
leaving the state unchanged. -/
theorem C9_empty_key_behavior :
    ∀ (order : List String → List String) (m : Nat) (h : Hist) (g t : String),
      add_to_history order m h "" t = h ∧
      add_to_history order m h g "" = h ∧
      is_in_history h "" t = false ∧
      is_in_history h g "" = false ∧
      clear_history h none = [] ∧
      clear_history h (some "") = [] := by
  intro order m h g t
  refine ⟨by simp [add_to_history], by simp [add_to_history], by simp [is_in_history],
    by simp [is_in_history], rfl, by simp [clear_history]⟩

/-- C3: whatever exception the try-guarded body raises — in particular any
exception a provider raises during resolution — get_next_track catches it,
returns a failure AutoplayResult carrying the diagnostic message built from
it, publishes an error event with that message, and leaves the history
unchanged: the caller always receives an AutoplayResult, never an exception. -/
theorem C3_engine_never_raises :
    ∀ order m (providers : AutoplaySource → Option ProviderFun) h ti g e,
      get_next_track_body order m providers h ti g = .error e →
      get_next_track order m providers h ti g =
        ({ success := false, error := some ("Autoplay error: " ++ e) },
          [.error (match ti with | some t => t.source_name | none => "unknown") ti
            (some ("Autoplay error: " ++ e))], h) := by
  intro order m providers h ti g e hbody
  unfold get_next_track
  rw [hbody]

/-- C3 witness: a provider raising boom is caught; the caller receives the
failure result with the diagnostic message and an error event is emitted. -/
theorem C3_engine_never_raises_witness :
    get_next_track id 50 (fun _ => some (fun _ _ => .error "boom")) []
      (some ⟨"T", "A", "i", "u", "spotify"⟩) "g" =
      ({ success := false, error := some ("Autoplay error: " ++ "boom") },
        [.error (match some (⟨"T", "A", "i", "u", "spotify"⟩ : LavalinkTrackInfo) with
          | some t => t.source_name | none => "unknown")
          (some ⟨"T", "A", "i", "u", "spotify"⟩) (some ("Autoplay error: " ++ "boom"))], []) :=
  C3_engine_never_raises id 50 (fun _ => some (fun _ _ => .error "boom")) []
    (some ⟨"T", "A", "i", "u", "spotify"⟩) "g" "boom" (by decide)

/-- C6: a track with an empty title or an empty author makes each of the
three providers return the invalid-track-info failure result while making
zero calls on its injected dependency (search client or scraper fetch). -/
theorem C6_invalid_track_no_calls :
    ∀ (eura : Option SearchOracle) (sc_rec : ScAutoOracle) (rand : Nat)
      (t : LavalinkTrackInfo) (exclude : List String),
      t.title = "" ∨ t.author = "" →
      yt_get_next_track eura rand (some t) exclude =
        (create_error_result .YOUTUBE "Invalid track info provided", 0) ∧
      sp_get_next_track eura (some t) exclude =
        (create_error_result .SPOTIFY "Invalid track info provided", 0) ∧
      sc_get_next_track sc_rec (some t) exclude =
        (create_error_result .SOUNDCLOUD "Invalid track info provided", 0) := by
  intro eura sc_rec rand t exclude hbad
  have hval : validate_track_info (some t) = false := by
    unfold validate_track_info
    rcases hbad with hb | hb <;> simp [hb]
  exact ⟨by simp [yt_get_next_track, hval], by simp [sp_get_next_track, hval],
    by simp [sc_get_next_track, hval]⟩

/-- C6 witness: on a track with an empty title, and with no client injected
and a scraper oracle in place, all three providers fail with zero calls. -/
theorem C6_invalid_track_no_calls_witness :
    yt_get_next_track none 0 (some ⟨"", "A", "i", "u", "s"⟩) [] =
      (create_error_result .YOUTUBE "Invalid track info provided", 0) ∧
    sp_get_next_track none (some ⟨"", "A", "i", "u", "s"⟩) [] =
      (create_error_result .SPOTIFY "Invalid track info provided", 0) ∧
    sc_get_next_track (fun _ => none) (some ⟨"", "A", "i", "u", "s"⟩) [] =
      (create_error_result .SOUNDCLOUD "Invalid track info provided", 0) :=
  C6_invalid_track_no_calls none (fun _ => none) 0 ⟨"", "A", "i", "u", "s"⟩ []
    (Or.inl rfl)

/-- C10: when the provider the engine routes to returns a success result
whose track_id is None or the empty string, the engine returns that success
result to the caller unchanged, inserts nothing into the session history, and
publishes an error event whose error field is the result's error (None for
such results) instead of a success event.  The second conjunct exhibits the
SoundCloud provider producing exactly such a result when the recommended URL
carries no numeric track id: success with track_id the empty string and
error None. -/
theorem C10_success_without_track_id :
    (∀ order m h (t : LavalinkTrackInfo) g (r : AutoplayResult)
      (ytP spP scP : ProviderFun),
      r.success = true →
      r.track_id = none ∨ r.track_id = some "" →
      (∀ src, (match src with
        | AutoplaySource.YOUTUBE => some ytP
        | AutoplaySource.SPOTIFY => some spP
        | AutoplaySource.SOUNDCLOUD => some scP :
          Option ProviderFun) = some (fun _ _ => .ok r)) →
      get_next_track order m
        (fun src => match src with
          | .YOUTUBE => some ytP
          | .SPOTIFY => some spP
          | .SOUNDCLOUD => some scP) h (some t) g =
        (r, [.error (map_source_name t.source_name (some t)).value (some t) r.error], h)) ∧
    sc_get_next_track (fun _ => some "https://soundcloud.com/artist/cool-song")
      (some ⟨"Song", "Artist", "id1", "https://soundcloud.com/artist/seed", "soundcloud"⟩) [] =
      ({ success := true,
         url := some "https://soundcloud.com/artist/cool-song",
         track_id := some "",
         source := some .SOUNDCLOUD }, 1) := by
  constructor
  · intro order m h t g r ytP spP scP hsucc hemp hprov
    have htr : optStrTruthy r.track_id = false := by
      rcases hemp with he | he <;> simp [he, optStrTruthy]
    simp only [get_next_track, get_next_track_body]
    rw [hprov (map_source_name t.source_name (some t))]
    simp [hsucc, htr]
  · decide

/-- C10 witness: a constant provider returning success with an empty track_id
is routed through the engine — the result comes back unchanged, the history
is untouched and the emitted event is an error event with error None. -/
theorem C10_success_without_track_id_witness :
    get_next_track id 50
      (fun src => match src with
        | .YOUTUBE => some (fun _ _ =>
            .ok { success := true, url := some "u", track_id := some "",
                  source := some .SOUNDCLOUD })
        | .SPOTIFY => some (fun _ _ =>
            .ok { success := true, url := some "u", track_id := some "",
                  source := some .SOUNDCLOUD })
        | .SOUNDCLOUD => some (fun _ _ =>
            .ok { success := true, url := some "u", track_id := some "",
                  source := some .SOUNDCLOUD })) [("g", ["x"])]
      (some ⟨"Song", "Artist", "id1", "https://soundcloud.com/artist/seed", "soundcloud"⟩)
      "g" =
      ({ success := true, url := some "u", track_id := some "", source := some .SOUNDCLOUD },
        [.error (map_source_name "soundcloud"
            (some ⟨"Song", "Artist", "id1", "https://soundcloud.com/artist/seed",
              "soundcloud"⟩)).value
          (some ⟨"Song", "Artist", "id1", "https://soundcloud.com/artist/seed", "soundcloud"⟩)
          none], [("g", ["x"])]) :=
  C10_success_without_track_id.1 id 50 [("g", ["x"])]
    ⟨"Song", "Artist", "id1", "https://soundcloud.com/artist/seed", "soundcloud"⟩ "g"
    { success := true, url := some "u", track_id := some "", source := some .SOUNDCLOUD }
    (fun _ _ => .ok { success := true, url := some "u", track_id := some "",
                      source := some .SOUNDCLOUD })
    (fun _ _ => .ok { success := true, url := some "u", track_id := some "",
                      source := some .SOUNDCLOUD })
    (fun _ _ => .ok { success := true, url := some "u", track_id := some "",
                      source := some .SOUNDCLOUD })
    rfl (Or.inr rfl) (fun src => by cases src <;> rfl)

/-- C7: when the single recommendation the Spotify search returns carries an
identifier already in the exclude set, the provider returns the no-tracks
failure having made exactly one search call — no second candidate is tried —
and, routed through the dispatch engine, that failure leaves the session
history unchanged and publishes an error event. -/
theorem C7_spotify_excluded_single_shot :
    ∀ (cand : TrackCand) (t : LavalinkTrackInfo) (h : Hist) (g : String)
      (order : List String → List String) (m : Nat) (ytP scP : ProviderFun),
      t.title ≠ "" → t.author ≠ "" → t.identifier ≠ "" →
      map_source_name t.source_name (some t) = .SPOTIFY →
      cand.identifier ∈ histGet h g →
      sp_get_next_track (some (fun _ => .ok [some cand])) (some t) (histGet h g) =
        (create_error_result .SPOTIFY "No Spotify autoplay tracks found", 1) ∧
      get_next_track order m
        (fun src => match src with
          | .YOUTUBE => some ytP
          | .SPOTIFY => some (fun ti ex =>
              .ok (sp_get_next_track (some (fun _ => .ok [some cand])) (some ti) ex).1)
          | .SOUNDCLOUD => some scP) h (some t) g =
        (create_error_result .SPOTIFY "No Spotify autoplay tracks found",
          [.error "spotify" (some t) (some "No Spotify autoplay tracks found")], h) := by
  intro cand t h g order m ytP scP ht ha hid hmap hmem
  have hval : validate_track_info (some t) = true := by
    simp [validate_track_info, ht, ha]
  have hcontains : (histGet h g).contains cand.identifier = true :=
    List.elem_eq_true_of_mem hmem
  have hsp : sp_get_next_track (some (fun _ => .ok [some cand])) (some t) (histGet h g) =
      (create_error_result .SPOTIFY "No Spotify autoplay tracks found", 1) := by
    simp [sp_get_next_track, hval, get_spotify_autoplay_tracks, resolve_with_lavalink,
      hid, hcontains, hmem]
  refine ⟨hsp, ?_⟩
  simp only [get_next_track, get_next_track_body, hmap]
  simp [hsp, create_error_result, AutoplaySource.value]

/-- C7 witness: the end-to-end scenario of the spec — the YUKON track with a
mocked search returning the single recommendation abc while abc is already in
the session history — fails with the no-tracks message after one search call
and leaves the history unchanged. -/
theorem C7_spotify_excluded_single_shot_witness :
    sp_get_next_track
        (some (fun _ => .ok [some ⟨"abc", "T", "A", "https://open.spotify.com/track/abc", 0⟩]))
        (some ⟨"YUKON", "Justin Bieber", "29iva9idM6rFCPUlu7Rhxl",
          "https://open.spotify.com/track/29iva9idM6rFCPUlu7Rhxl", "spotify"⟩)
        (histGet [("guild1", ["abc"])] "guild1") =
      (create_error_result .SPOTIFY "No Spotify autoplay tracks found", 1) ∧
    get_next_track id 50
        (fun src => match src with
          | .YOUTUBE => some (fun _ _ => .ok { success := false })
          | .SPOTIFY => some (fun ti ex =>
              .ok (sp_get_next_track
                (some (fun _ =>
                  .ok [some ⟨"abc", "T", "A", "https://open.spotify.com/track/abc", 0⟩]))
                (some ti) ex).1)
          | .SOUNDCLOUD => some (fun _ _ => .ok { success := false }))
        [("guild1", ["abc"])]
        (some ⟨"YUKON", "Justin Bieber", "29iva9idM6rFCPUlu7Rhxl",
          "https://open.spotify.com/track/29iva9idM6rFCPUlu7Rhxl", "spotify"⟩) "guild1" =
      (create_error_result .SPOTIFY "No Spotify autoplay tracks found",
        [.error "spotify"
          (some ⟨"YUKON", "Justin Bieber", "29iva9idM6rFCPUlu7Rhxl",
            "https://open.spotify.com/track/29iva9idM6rFCPUlu7Rhxl", "spotify"⟩)
          (some "No Spotify autoplay tracks found")], [("guild1", ["abc"])]) :=
  C7_spotify_excluded_single_shot
    ⟨"abc", "T", "A", "https://open.spotify.com/track/abc", 0⟩
    ⟨"YUKON", "Justin Bieber", "29iva9idM6rFCPUlu7Rhxl",
      "https://open.spotify.com/track/29iva9idM6rFCPUlu7Rhxl", "spotify"⟩
    [("guild1", ["abc"])] "guild1" id 50
    (fun _ _ => .ok { success := false }) (fun _ _ => .ok { success := false })
    (by decide) (by decide) (by decide) (by decide) (by decide)

/-- The collector never exceeds the MAX_SC_LINKS cap of 20. -/
theorem sc_collect_length_le :
    ∀ fuel cs found, found.length < 20 → (sc_collect fuel cs found).length ≤ 20 := by
  intro fuel
  induction fuel with
  | zero => intro cs found hlt; simp only [sc_collect]; omega
  | succ fuel ih =>
    intro cs found hlt
    cases cs with
    | nil => simp only [sc_collect]; omega
    | cons c t =>
      cases hm : scMatchAt (c :: t) with
      | none => simpa only [sc_collect, hm] using ih t found hlt
      | some pr =>
        obtain ⟨grp, rest⟩ := pr
        by_cases hcap : (found ++ ["https://soundcloud.com" ++ grp]).length ≥ 20
        · simp only [sc_collect, hm, if_pos hcap]
          simp only [List.length_append, List.length_singleton] at hcap ⊢
          omega
        · simp only [sc_collect, hm, if_neg hcap]
          exact ih rest _ (by simp only [List.length_append, List.length_singleton] at hcap ⊢; omega)

/-- Every collected URL is an absolutized catalog URL. -/
theorem sc_collect_absolutized :
    ∀ fuel cs found, (∀ u ∈ found, ∃ p : String, u = "https://soundcloud.com" ++ p) →
      ∀ u ∈ sc_collect fuel cs found, ∃ p : String, u = "https://soundcloud.com" ++ p := by
  intro fuel
  induction fuel with
  | zero => intro cs found hfound; simpa only [sc_collect] using hfound
  | succ fuel ih =>
    intro cs found hfound
    cases cs with
    | nil => simpa only [sc_collect] using hfound
    | cons c t =>
      cases hm : scMatchAt (c :: t) with
      | none => simpa only [sc_collect, hm] using ih t found hfound
      | some pr =>
        obtain ⟨grp, rest⟩ := pr
        have hfound2 : ∀ u ∈ found ++ ["https://soundcloud.com" ++ grp],
            ∃ p : String, u = "https://soundcloud.com" ++ p := by
          intro u hu
          rcases List.mem_append.mp hu with hu | hu
          · exact hfound u hu
          · rcases List.mem_singleton.mp hu with rfl
            exact ⟨grp, rfl⟩
        by_cases hcap : (found ++ ["https://soundcloud.com" ++ grp]).length ≥ 20
        · simpa only [sc_collect, hm, if_pos hcap] using hfound2
        · simpa only [sc_collect, hm, if_neg hcap] using ih rest _ hfound2

/-- A synthetic HTML fragment with three anchors matching SC_LINK_PATTERN. -/
def scThreeAnchorFragment : String :=
  "<html><body><a itemprop=\"url\" href=\"/artist/track-one\">x</a>\n<a  itemprop=\"url\"\thref=\"/artist/track-two\">y</a><a itemprop=\"url\" href=\"/a/b3\">z</a></body></html>"

/-- C8: the scraper yields at most 20 candidate URLs for any HTML body, every
candidate is the captured path rewritten onto the absolute catalog prefix,
and the synthetic three-anchor fragment yields exactly its three absolutized
candidate URLs, in document order. -/
theorem C8_sc_link_extraction :
    (∀ html : String, (sc_links html).length ≤ 20) ∧
    (∀ html u, u ∈ sc_links html → ∃ p : String, u = "https://soundcloud.com" ++ p) ∧
    sc_links scThreeAnchorFragment =
      ["https://soundcloud.com/artist/track-one", "https://soundcloud.com/artist/track-two",
        "https://soundcloud.com/a/b3"] := by
  refine ⟨fun html => sc_collect_length_le _ _ [] (by norm_num),
    fun html u hu => sc_collect_absolutized _ _ [] (by simp) u hu, by decide⟩

/-- C8 witness: the first URL extracted from the fragment is an absolutized
catalog URL. -/
theorem C8_sc_link_extraction_witness :
    ∃ p : String, "https://soundcloud.com/artist/track-one" = "https://soundcloud.com" ++ p :=
  C8_sc_link_extraction.2.1 scThreeAnchorFragment "https://soundcloud.com/artist/track-one"
    (by decide)

/-- C4: create_totp never returns a code: every call raises AttributeError
because .zfill(6) is applied to the int value code % 1_000_000 (first
conjunct).  The remaining conjuncts certify the embedded computation leading
up to that final slip, at the fixed 30-second bucket 57000000 (the counter
for unix second 1710000000): the HMAC-SHA1 digest over the 8-byte big-endian
counter with the fixed secret equals the independently computed reference
digest; dynamic truncation — offset from the low 4 bits of the last digest
byte, 4 bytes with the top bit masked — yields the reference value
1965681831; and the repaired return value is the reproducible zero-padded
6-digit string 681831 together with the bucket timestamp in milliseconds. -/
theorem C4_create_totp_zfill_bug :
    (∀ time_val : Nat, create_totp time_val =
      .error "AttributeError: int object has no attribute zfill") ∧
    totp_counter 1710000000 = 57000000 ∧
    totp_hash 57000000 = totpDigest ∧
    totp_code 57000000 = 1965681831 ∧
    create_totp_fixed 57000000 = ("681831", 1710000000000) := by
  refine ⟨fun t => rfl, by norm_num [totp_counter], totp_hash_57000000,
    totp_code_57000000, ?_⟩
  unfold create_totp_fixed
  rw [totp_code_57000000]
  decide

/-- C5: sp_auto_play cannot return a value at all — let alone the graceful
None the claim requires — for any token/recommendation responses, eval
outcomes, random index and seed: create_totp is invoked before the try
statement and always raises AttributeError, which escapes sp_auto_play
uncaught.  The parsing steps the function would run (the evalTok and evalRec
oracles of the model) stand for Python eval applied to the raw response
bodies, not a strict JSON parser, so the parsing half of the claim fails in
the source as well. -/
theorem C5_sp_auto_play_always_raises :
    ∀ time_val fetchTok evalTok fetchRec evalRec randIdx seed_id,
      sp_auto_play time_val fetchTok evalTok fetchRec evalRec randIdx seed_id =
        .error "AttributeError: int object has no attribute zfill" := by
  intro time_val fetchTok evalTok fetchRec evalRec randIdx seed_id
  rfl

end RyxuAutoplay
